import Mathlib

/-!
Verification of the parking-dataset analysis program (`main.py`).

The program is a line-oriented loader (`load_dataset`) producing an in-memory
list of records, two small time helpers (`calculate_duration_minutes`,
`convert_to_hours_minutes`), and four read-only report functions
(`licence_plate_history`, `peak_hour_analysis`, `daily_revenue`,
`avg_stay_duration`) driven by an interactive menu (`main`).

Python strings are modelled as Lean `String` (a list of Unicode code points);
the Python string primitives the source uses (`str.strip`, `str.split` on a
one-character separator, `str.upper`, `str.isdigit`, `int(...)`) are embedded
below as structurally recursive functions over `String.data`, so that every
definition evaluates inside the kernel. Interactive `input()` calls are
modelled as explicit `String` parameters, and each report's printed outcome as
an explicit result type.
-/

namespace Parking

/-! ### Python string primitives -/

/-- Whitespace stripped by Python `str.strip()` (ASCII part: space, tab,
newline, vertical tab, form feed, carriage return). -/
def isPySpace (c : Char) : Bool :=
  c == ' ' || c == '\t' || c == '\n' || c == '\x0b' || c == '\x0c' || c == '\r'

/-- Remove leading and trailing whitespace from a character list. -/
def stripList (l : List Char) : List Char :=
  ((l.dropWhile isPySpace).reverse.dropWhile isPySpace).reverse

/-- Python `s.strip()`. -/
def pyStrip (s : String) : String := ⟨stripList s.data⟩

/-- Split a character list at every occurrence of the delimiter.
`splitChars '|' "a|b".data = [['a'],['b']]`; the empty list yields `[[]]`,
matching Python `"".split('|') = ['']`. -/
def splitChars (delim : Char) : List Char → List (List Char)
  | [] => [[]]
  | c :: cs =>
    match splitChars delim cs, c == delim with
    | rest, true => [] :: rest
    | r :: rs, false => (c :: r) :: rs
    | [], false => [[c]]

/-- Python `s.split(d)` for a one-character separator `d`. -/
def pySplit (s : String) (d : Char) : List String :=
  (splitChars d s.data).map String.mk

/-- Python `s.upper()` (ASCII letters; the dataset fields are ASCII). -/
def pyUpper (s : String) : String := ⟨s.data.map Char.toUpper⟩

/-- Python `s.isdigit()`: non-empty and all digits. The dataset and menu
inputs are ASCII, so only ASCII decimal digits are modelled. -/
def pyIsdigit (s : String) : Bool :=
  !s.data.isEmpty && s.data.all Char.isDigit

/-- Base-10 value of a digit character list (used for `int` on digit strings). -/
def pyIntValue (l : List Char) : Nat :=
  l.foldl (fun a c => 10 * a + (c.toNat - 48)) 0

/-- Python `int(s)` on a string: surrounding whitespace is ignored, an optional
leading `+` or `-` sign is accepted, then one or more decimal digits are
required; any other shape raises `ValueError`, modelled as `none` (ASCII
digits; CPython's underscore digit grouping is not modelled). -/
def pyInt (s : String) : Option Int :=
  match (pyStrip s).data with
  | '+' :: rest =>
    if !rest.isEmpty && rest.all Char.isDigit then some (pyIntValue rest) else none
  | '-' :: rest =>
    if !rest.isEmpty && rest.all Char.isDigit then some (-(pyIntValue rest : Int)) else none
  | l =>
    if !l.isEmpty && l.all Char.isDigit then some (pyIntValue l) else none

/-! ### Data model (`main.py` lines 39-46) -/

/-- One validated parking record, as built by `load_dataset` (`main.py`
lines 39-46). Field names follow the record dictionary keys. -/
structure Record where
  plate : String
  date : String
  checkin : Int
  checkout : Int
  spot_id : String
  fee : Int
deriving DecidableEq

/-! ### Date validation (`datetime.strptime(date, "%Y/%m/%d")`) -/

/-- Gregorian leap-year rule used by `datetime`. -/
def isLeap (y : Nat) : Bool :=
  (y % 4 == 0 && y % 100 != 0) || y % 400 == 0

/-- Number of days in a month, as enforced by the `datetime` constructor. -/
def daysInMonth (y m : Nat) : Nat :=
  if m == 2 then (if isLeap y then 29 else 28)
  else if m == 4 || m == 6 || m == 9 || m == 11 then 30
  else 31

/-- Models CPython `datetime.strptime(s, "%Y/%m/%d")` succeeding: the format
compiles to the anchored regex `(\d\d\d\d)/(1[0-2]|0[1-9]|[1-9])/(3[01]|[12]\d|0[1-9]|[1-9])`
(whole string must be consumed), after which `datetime(year, month, day)`
checks `1 <= year` and `day <= days in month`. In particular the year must
have exactly 4 digits while month and day may have 1 or 2 digits - zero
padding is NOT required by the code. -/
def validDate (s : String) : Bool :=
  match splitChars '/' s.data with
  | [ys, ms, ds] =>
    ys.length == 4 && ys.all Char.isDigit &&
    decide (1 ≤ ms.length) && decide (ms.length ≤ 2) && ms.all Char.isDigit &&
    decide (1 ≤ ds.length) && decide (ds.length ≤ 2) && ds.all Char.isDigit &&
    decide (1 ≤ pyIntValue ys) &&
    decide (1 ≤ pyIntValue ms) && decide (pyIntValue ms ≤ 12) &&
    decide (1 ≤ pyIntValue ds) &&
    decide (pyIntValue ds ≤ daysInMonth (pyIntValue ys) (pyIntValue ms))
  | _ => false

/-! ### Loader (`load_dataset`, `main.py` lines 11-58) -/

/-- Processing of one input line inside the loader's `for` loop (`main.py`
lines 22-51): strip the line, split on `'|'`, require exactly 6 fields,
convert `checkin`/`checkout`/`fee` with `int(...)`, validate the date with
`strptime`; any failure skips the line (`none`). -/
def parseLine (line : String) : Option Record :=
  let parts := pySplit (pyStrip line) '|'
  if h : parts.length = 6 then
    match pyInt (pyStrip parts[2]), pyInt (pyStrip parts[3]), pyInt (pyStrip parts[5]) with
    | some checkin, some checkout, some fee =>
      if validDate (pyStrip parts[1]) then
        some { plate := pyUpper (pyStrip parts[0]), date := pyStrip parts[1],
               checkin := checkin, checkout := checkout,
               spot_id := pyUpper (pyStrip parts[4]), fee := fee }
      else none
    | _, _, _ => none
  else none

/-- The loader's per-line loop (`main.py` lines 18-52): `n` is the 1-based
number of the first line; returns the accepted records in file order together
with the 1-based numbers of the skipped lines (each skipped line prints one
diagnostic naming its line number). -/
def loadLines : List String → Nat → List Record × List Nat
  | [], _ => ([], [])
  | l :: ls, n =>
    match parseLine l with
    | some r => (r :: (loadLines ls (n + 1)).1, (loadLines ls (n + 1)).2)
    | none => ((loadLines ls (n + 1)).1, n :: (loadLines ls (n + 1)).2)

/-- Outcome of opening the dataset file. -/
inductive FileAccess where
  | missing
  | unreadable
  | content (lines : List String)

/-- A printed diagnostic of the loader. -/
inductive Diag where
  | skip (lineNumber : Nat)
  | fileNotFound
  | unexpectedError
deriving DecidableEq

/-- `load_dataset` (`main.py` lines 11-58): a missing file prints
`"Error: File not found."` and returns `[]`; any other file error prints
`"Unexpected error ..."` and returns `[]`; otherwise every line is processed
by the loop, malformed lines are skipped with a per-line diagnostic. -/
def load_dataset : FileAccess → List Record × List Diag
  | .missing => ([], [.fileNotFound])
  | .unreadable => ([], [.unexpectedError])
  | .content lines =>
    ((loadLines lines 1).1, (loadLines lines 1).2.map Diag.skip)

/-- `main` (`main.py` lines 209-211): an empty load result prints
`"No valid records loaded. Program will exit."` and returns before the menu
loop; otherwise the menu loop runs over the loaded dataset. -/
inductive MainOutcome where
  | exitNoData
  | menu (dataset : List Record)
deriving DecidableEq

/-- The branch of `main` right after loading (`main.py` lines 207-213). -/
def main_dispatch (dataset : List Record) : MainOutcome :=
  if dataset.isEmpty then .exitNoData else .menu dataset

/-! ### Python string comparison (code-point lexicographic order)

Python compares strings lexicographically by Unicode code point; `sorted`
produces the unique ordering under that total order. -/

/-- Strict lexicographic order on code-point lists, as Python `<` on `str`. -/
def lexLt : List Char → List Char → Bool
  | [], [] => false
  | [], _ :: _ => true
  | _ :: _, [] => false
  | a :: as, b :: bs => if a < b then true else if b < a then false else lexLt as bs

/-- Python `a < b` on strings. -/
def strLt (a b : String) : Prop := lexLt a.data b.data = true

/-- Python `a <= b` on strings (total order, so `a <= b` iff not `b < a`). -/
def strLe (a b : String) : Prop := lexLt b.data a.data = false

instance : DecidableRel strLt := fun a b => instDecidableEqBool (lexLt a.data b.data) true

instance : DecidableRel strLe := fun a b => instDecidableEqBool (lexLt b.data a.data) false

theorem lexLt_irrefl : ∀ l : List Char, lexLt l l = false
  | [] => rfl
  | a :: as => by
    simp only [lexLt]
    rw [if_neg (lt_irrefl a), if_neg (lt_irrefl a)]
    exact lexLt_irrefl as

theorem lexLt_trans : ∀ {l₁ l₂ l₃ : List Char},
    lexLt l₁ l₂ = true → lexLt l₂ l₃ = true → lexLt l₁ l₃ = true
  | [], [], _, h₁, _ => by cases h₁
  | [], _ :: _, [], _, h₂ => by cases h₂
  | [], _ :: _, _ :: _, _, _ => rfl
  | _ :: _, [], _, h₁, _ => by cases h₁
  | _ :: _, _ :: _, [], _, h₂ => by cases h₂
  | a :: as, b :: bs, c :: cs, h₁, h₂ => by
    simp only [lexLt] at h₁ h₂ ⊢
    rcases lt_trichotomy a b with hab | hab | hab
    · rcases lt_trichotomy b c with hbc | hbc | hbc
      · rw [if_pos (lt_trans hab hbc)]
      · subst hbc
        rw [if_pos hab]
      · rw [if_neg (lt_asymm hbc), if_pos hbc] at h₂
        cases h₂
    · subst hab
      rw [if_neg (lt_irrefl a), if_neg (lt_irrefl a)] at h₁
      rcases lt_trichotomy a c with hac | hac | hac
      · rw [if_pos hac]
      · subst hac
        rw [if_neg (lt_irrefl a), if_neg (lt_irrefl a)] at h₂ ⊢
        exact lexLt_trans h₁ h₂
      · rw [if_neg (lt_asymm hac), if_pos hac] at h₂
        cases h₂
    · rw [if_neg (lt_asymm hab), if_pos hab] at h₁
      cases h₁

theorem lexLt_asymm : ∀ {l₁ l₂ : List Char}, lexLt l₁ l₂ = true → lexLt l₂ l₁ = false
  | [], [], h => by cases h
  | [], _ :: _, _ => rfl
  | _ :: _, [], h => by cases h
  | a :: as, b :: bs, h => by
    simp only [lexLt] at h ⊢
    rcases lt_trichotomy a b with hab | hab | hab
    · rw [if_neg (lt_asymm hab), if_pos hab]
    · subst hab
      rw [if_neg (lt_irrefl a), if_neg (lt_irrefl a)] at h ⊢
      exact lexLt_asymm h
    · rw [if_neg (lt_asymm hab), if_pos hab] at h
      cases h

theorem lexLt_eq_of_not_lt : ∀ {l₁ l₂ : List Char},
    lexLt l₁ l₂ = false → lexLt l₂ l₁ = false → l₁ = l₂
  | [], [], _, _ => rfl
  | [], _ :: _, h₁, _ => by cases h₁
  | _ :: _, [], _, h₂ => by cases h₂
  | a :: as, b :: bs, h₁, h₂ => by
    simp only [lexLt] at h₁ h₂
    rcases lt_trichotomy a b with hab | hab | hab
    · rw [if_pos hab] at h₁
      cases h₁
    · subst hab
      rw [if_neg (lt_irrefl a), if_neg (lt_irrefl a)] at h₁ h₂
      rw [lexLt_eq_of_not_lt h₁ h₂]
    · rw [if_pos hab] at h₂
      cases h₂

instance : IsTotal String strLe :=
  ⟨fun a b => by
    unfold strLe
    cases h : lexLt b.data a.data
    · exact Or.inl rfl
    · exact Or.inr (lexLt_asymm h)⟩

instance : IsTrans String strLe :=
  ⟨fun a b c hab hbc => by
    unfold strLe at hab hbc ⊢
    cases hca : lexLt c.data a.data
    · rfl
    · cases hbc' : lexLt b.data c.data
      · have : b.data = c.data := lexLt_eq_of_not_lt hbc' hbc
        rw [← this] at hca
        rw [hca] at hab
        exact hab
      · have := lexLt_trans hbc' hca
        rw [this] at hab
        exact hab⟩

/-! ### Duration helpers (`main.py` lines 62-80)

Python `//` and `%` are floor division and floor modulus, i.e. `Int.fdiv` and
`Int.fmod`. -/

/-- `calculate_duration_minutes` (`main.py` lines 62-72): decode both HHMM
integers into minutes since midnight and clamp the difference at zero. -/
def calculate_duration_minutes (checkin checkout : Int) : Int :=
  max 0 ((Int.fdiv checkout 100 * 60 + Int.fmod checkout 100)
    - (Int.fdiv checkin 100 * 60 + Int.fmod checkin 100))

/-- `convert_to_hours_minutes` (`main.py` lines 76-80): Python
`divmod(total_minutes, 60)`. -/
def convert_to_hours_minutes (total_minutes : Int) : Int × Int :=
  (Int.fdiv total_minutes 60, Int.fmod total_minutes 60)

/-! ### Licence-plate history report (`main.py` lines 84-114) -/

/-- Printed outcome of `licence_plate_history`: either the "no records found"
message or a table of the listed records (in order). -/
inductive PlateResult where
  | noRecords
  | table (rows : List Record)
deriving DecidableEq

/-- `licence_plate_history` (`main.py` lines 84-114) with the interactive
`input()` passed as `rawInput`. The entered filter is stripped and uppercased;
a non-empty filter keeps exactly the records whose plate equals it (printing
"No records found" when none matches); an empty filter lists all records. -/
def licence_plate_history (data : List Record) (rawInput : String) : PlateResult :=
  let plate_input := pyUpper (pyStrip rawInput)
  if plate_input ≠ "" then
    if data.filter (fun r => r.plate == plate_input) = [] then .noRecords
    else .table (data.filter (fun r => r.plate == plate_input))
  else .table data

/-! ### Peak-hour analysis report (`main.py` lines 118-135) -/

/-- Hour component of a record's check-in time (`record['checkin'] // 100`). -/
def hourOf (r : Record) : Int := Int.fdiv r.checkin 100

/-- One step of building the `hour_counts` dict (`main.py` line 126):
Python dicts preserve insertion order, so the dict is an association list
where an existing key is incremented in place and a new key is appended. -/
def bump : List (Int × Nat) → Int → List (Int × Nat)
  | [], h => [(h, 1)]
  | (k, c) :: rest, h =>
    if k == h then (k, c + 1) :: rest else (k, c) :: bump rest h

/-- The `hour_counts` dict after the counting loop (`main.py` lines 123-126),
as an insertion-ordered association list. -/
def hourCounts (data : List Record) : List (Int × Nat) :=
  data.foldl (fun acc r => bump acc (hourOf r)) []

/-- The sort relation of `sorted(..., key=operator.itemgetter(1), reverse=True)`:
CPython's stable sort with `reverse=True` orders by count descending and keeps
equal-count items in their original relative order, which is exactly a stable
sort under this relation. -/
def countDesc (a b : Int × Nat) : Prop := b.2 ≤ a.2

instance : DecidableRel countDesc := fun a b => Nat.decLe b.2 a.2

instance : IsTotal (Int × Nat) countDesc := ⟨fun a b => Nat.le_total b.2 a.2⟩

instance : IsTrans (Int × Nat) countDesc := ⟨fun _ _ _ h₁ h₂ => Nat.le_trans h₂ h₁⟩

/-- `peak_hour_analysis` (`main.py` lines 118-135): the printed (hour, count)
rows, by count descending, ties in insertion order. -/
def peak_hour_analysis (data : List Record) : List (Int × Nat) :=
  List.insertionSort countDesc (hourCounts data)

/-! ### Daily revenue report (`main.py` lines 139-165) -/

/-- Printed outcome of `daily_revenue`. -/
inductive RevenueResult where
  | invalidInput
  | invalidSelection
  | total (date : String) (amount : Int)
deriving DecidableEq

/-- `sorted(set(record['date'] for record in data))` (`main.py` line 144):
the distinct dates in ascending code-point lexicographic order. -/
def uniqueDates (data : List Record) : List String :=
  List.insertionSort strLe ((data.map fun r => r.date).dedup)

/-- `daily_revenue` (`main.py` lines 139-165) with the interactive `input()`
passed as `rawSel`. A stripped selection failing `str.isdigit` prints the
invalid-input message; a digit selection outside `[1, len(unique_dates)]`
prints the invalid-selection message; otherwise the fees of the records on
the selected date are summed. -/
def daily_revenue (data : List Record) (rawSel : String) : RevenueResult :=
  if pyIsdigit (pyStrip rawSel) = false then .invalidInput
  else if 1 ≤ pyIntValue (pyStrip rawSel).data ∧
      pyIntValue (pyStrip rawSel).data ≤ (uniqueDates data).length then
    .total ((uniqueDates data)[pyIntValue (pyStrip rawSel).data - 1]!)
      (((data.filter fun r =>
          r.date == (uniqueDates data)[pyIntValue (pyStrip rawSel).data - 1]!).map
        fun r => r.fee).sum)
  else .invalidSelection

/-! ### Average stay duration report (`main.py` lines 169-184) -/

/-- Printed outcome of `avg_stay_duration`. -/
inductive AvgResult where
  | noData
  | avg (hours minutes : Int)
deriving DecidableEq

/-- `avg_stay_duration` (`main.py` lines 169-184): "no data" on an empty
collection, otherwise the floor-average of the per-record durations rendered
via `divmod(average_minutes, 60)`. -/
def avg_stay_duration (data : List Record) : AvgResult :=
  if data.isEmpty then .noData
  else
    .avg (convert_to_hours_minutes
        (Int.fdiv ((data.map fun r =>
          calculate_duration_minutes r.checkin r.checkout).sum) data.length)).1
      (convert_to_hours_minutes
        (Int.fdiv ((data.map fun r =>
          calculate_duration_minutes r.checkin r.checkout).sum) data.length)).2

/-! ### Menu loop (`main.py` lines 201-234)

Each loop iteration dispatches one report over the loaded dataset. None of
the four report functions contains a statement that mutates `data`: they only
read it through comprehensions, `sum`, `sorted` and `set`, all of which build
new objects, so each invocation hands the collection back unchanged. -/

/-- One menu choice together with the interactive input the chosen report
reads, if any. -/
inductive MenuCmd where
  | plateHistory (input : String)
  | peakHours
  | revenue (input : String)
  | avgStay

/-- The output printed by one report invocation. -/
inductive ReportOut where
  | plateOut (r : PlateResult)
  | peakOut (r : List (Int × Nat))
  | revenueOut (r : RevenueResult)
  | avgOut (r : AvgResult)
deriving DecidableEq

/-- One iteration of the menu loop (`main.py` lines 219-226): run the chosen
report on the current collection and return its output together with the
collection as the report leaves it. -/
def runReport (dataset : List Record) : MenuCmd → ReportOut × List Record
  | .plateHistory inp => (.plateOut (licence_plate_history dataset inp), dataset)
  | .peakHours => (.peakOut (peak_hour_analysis dataset), dataset)
  | .revenue inp => (.revenueOut (daily_revenue dataset inp), dataset)
  | .avgStay => (.avgOut (avg_stay_duration dataset), dataset)

/-- The menu loop (`main.py` lines 215-231) over a whole sequence of report
choices, threading the record collection through every invocation. -/
def runMenu : List Record → List MenuCmd → List Record × List ReportOut
  | st, [] => (st, [])
  | st, c :: cs =>
    ((runMenu (runReport st c).2 cs).1,
     (runReport st c).1 :: (runMenu (runReport st c).2 cs).2)

/-! ### Loader lemmas -/

theorem loadLines_fst (ls : List String) (n : Nat) :
    (loadLines ls n).1 = ls.filterMap parseLine := by
  induction ls generalizing n with
  | nil => rfl
  | cons l ls ih =>
    simp only [loadLines, List.filterMap_cons]
    cases h : parseLine l
    · simpa [h] using ih (n + 1)
    · simp [h, ih (n + 1)]

theorem loadLines_snd (ls : List String) (n : Nat) :
    (loadLines ls n).2 =
      ((ls.enumFrom n).filter fun p => (parseLine p.2).isNone).map Prod.fst := by
  induction ls generalizing n with
  | nil => rfl
  | cons l ls ih =>
    simp only [loadLines, List.enumFrom_cons, List.filter_cons]
    cases h : parseLine l
    · simp [h, ih (n + 1)]
    · simp [h, ih (n + 1)]

theorem length_filterMap_eq_sub {α β : Type} (f : α → Option β) (l : List α) :
    (l.filterMap f).length = l.length - l.countP fun a => (f a).isNone := by
  induction l with
  | nil => rfl
  | cons a l ih =>
    have hle : l.countP (fun a => (f a).isNone) ≤ l.length := List.countP_le_length _
    cases h : f a
    · simp [List.filterMap_cons, h, List.countP_cons, ih]
    · simp [List.filterMap_cons, h, List.countP_cons, ih]
      omega

/-! ### Claim theorems -/

/-- C1: for an input file of N lines of which M are malformed (wrong field
count, invalid date, or non-numeric checkin/checkout/fee), `load_dataset`
returns exactly the N-M valid records in file order, and for each skipped
line emits one diagnostic carrying that line's 1-based number; no malformed
line aborts the load or discards another line's record. -/
theorem loader_skip_semantics (lines : List String) :
    (load_dataset (.content lines)).1 = lines.filterMap parseLine ∧
    (load_dataset (.content lines)).2 =
      ((lines.enumFrom 1).filter fun p => (parseLine p.2).isNone).map
        (fun p => Diag.skip p.1) ∧
    (load_dataset (.content lines)).1.length =
      lines.length - lines.countP fun l => (parseLine l).isNone := by
  refine ⟨?_, ?_, ?_⟩
  · simpa [load_dataset] using loadLines_fst lines 1
  · simp [load_dataset, loadLines_snd lines 1, List.map_map]
  · simp only [load_dataset]
    rw [loadLines_fst lines 1]
    exact length_filterMap_eq_sub parseLine lines

/-- C2: `calculate_duration_minutes` equals the clamped difference of the
decoded HHMM minute values (floor division and floor modulus, as Python
`//` and `%`), is never negative, and in particular maps (900, 800) to 0 and
(900, 1030) to 90. -/
theorem duration_clamp_spec (checkin checkout : Int) :
    calculate_duration_minutes checkin checkout =
      max 0 ((Int.fdiv checkout 100 * 60 + Int.fmod checkout 100)
        - (Int.fdiv checkin 100 * 60 + Int.fmod checkin 100)) ∧
    0 ≤ calculate_duration_minutes checkin checkout ∧
    calculate_duration_minutes 900 800 = 0 ∧
    calculate_duration_minutes 900 1030 = 90 :=
  ⟨rfl, le_max_left _ _, by decide, by decide⟩

/-- C8: a missing file yields the "file not found" diagnostic and an empty
record list, an otherwise unreadable file yields the unexpected-error
diagnostic and an empty record list, and `main` treats every empty load
result as fatal: it exits without entering the report menu. -/
theorem file_failure_spec :
    load_dataset .missing = ([], [.fileNotFound]) ∧
    load_dataset .unreadable = ([], [.unexpectedError]) ∧
    ∀ fa : FileAccess, (load_dataset fa).1 = [] →
      main_dispatch (load_dataset fa).1 = .exitNoData := by
  refine ⟨rfl, rfl, fun fa h => ?_⟩
  rw [h]
  rfl

/-- Witness for C8 at the concrete input `FileAccess.missing`. -/
theorem file_failure_spec_witness :
    main_dispatch (load_dataset .missing).1 = .exitNoData :=
  file_failure_spec.2.2 .missing rfl

/-- C9: the four report functions are read-only: running any sequence of
report invocations (with arbitrary interactive inputs) leaves the record
collection unchanged, and every invocation in the sequence observes the
identical original dataset. -/
theorem reports_read_only (data : List Record) (cmds : List MenuCmd) :
    (runMenu data cmds).1 = data ∧
    (runMenu data cmds).2 = cmds.map fun c => (runReport data c).1 := by
  induction cmds with
  | nil => exact ⟨rfl, rfl⟩
  | cons c cs ih =>
    have h2 : (runReport data c).2 = data := by cases c <;> rfl
    refine ⟨?_, ?_⟩ <;> simp [runMenu, h2, ih.1, ih.2]

/-- C5: a non-empty plate filter is stripped and uppercased and matched by
exact equality against the stored plates: with no match the report answers
"no records found" and prints no table, otherwise it prints exactly the
matching records; an empty filter lists every record in load order. -/
theorem plate_filter_spec (data : List Record) (raw : String) :
    (pyUpper (pyStrip raw) ≠ "" →
      data.filter (fun r => r.plate == pyUpper (pyStrip raw)) = [] →
      licence_plate_history data raw = .noRecords) ∧
    (pyUpper (pyStrip raw) ≠ "" →
      data.filter (fun r => r.plate == pyUpper (pyStrip raw)) ≠ [] →
      licence_plate_history data raw =
        .table (data.filter fun r => r.plate == pyUpper (pyStrip raw))) ∧
    (pyUpper (pyStrip raw) = "" → licence_plate_history data raw = .table data) := by
  refine ⟨fun h1 h2 => ?_, fun h1 h2 => ?_, fun h1 => ?_⟩
  · simp [licence_plate_history, h1, h2]
  · simp [licence_plate_history, h1, h2]
  · simp [licence_plate_history, h1]

/-- Record with plate `AB12` used by the C5 witness. -/
def plateA : Record := ⟨"AB12", "2024/01/01", 900, 1000, "S1", 5⟩

/-- Record with plate `CD34` used by the C5 witness. -/
def plateC : Record := ⟨"CD34", "2024/01/01", 930, 1100, "S2", 7⟩

/-- Witness for C5: lowercase input `ab12` selects exactly the `AB12` record,
and a filter matching nothing yields the no-records outcome. -/
theorem plate_filter_spec_witness :
    licence_plate_history [plateA, plateC] "ab12" = .table [plateA] ∧
    licence_plate_history [plateA, plateC] "zz99" = .noRecords :=
  ⟨((plate_filter_spec [plateA, plateC] "ab12").2.1 (by decide) (by decide)).trans
      (by decide),
   (plate_filter_spec [plateA, plateC] "zz99").1 (by decide) (by decide)⟩

/-- C6: on an empty collection the average-stay report answers "no data" and
performs no division; on n records it reports floor(sum of durations / n)
average minutes rendered as divmod(average minutes, 60). -/
theorem avg_stay_spec (data : List Record) :
    (data = [] → avg_stay_duration data = .noData) ∧
    (data ≠ [] → avg_stay_duration data =
      .avg (convert_to_hours_minutes (Int.fdiv ((data.map fun r =>
              calculate_duration_minutes r.checkin r.checkout).sum) data.length)).1
        (convert_to_hours_minutes (Int.fdiv ((data.map fun r =>
              calculate_duration_minutes r.checkin r.checkout).sum) data.length)).2) := by
  constructor
  · rintro rfl
    rfl
  · intro h
    simp [avg_stay_duration, h]

/-- Record with a 60-minute stay used by the C6 witness. -/
def durA : Record := ⟨"A1", "2024/01/01", 900, 1000, "S1", 0⟩

/-- Record with a 90-minute stay used by the C6 witness. -/
def durB : Record := ⟨"A2", "2024/01/01", 900, 1030, "S1", 0⟩

/-- Witness for C6: durations 60 and 90 average to 75 minutes, reported as
1 hour and 15 minutes; the empty collection reports "no data". -/
theorem avg_stay_spec_witness :
    avg_stay_duration [durA, durB] = .avg 1 15 ∧
    avg_stay_duration [] = .noData :=
  ⟨((avg_stay_spec [durA, durB]).2 (by decide)).trans (by decide),
   (avg_stay_spec []).1 rfl⟩

/-- C4: a selection string that is not a well-formed non-negative integer
numeral is rejected with the invalid-input message; a numeral whose value is
outside [1, number of distinct dates] is rejected with the invalid-selection
message; a valid selection k yields the sum of the fees of exactly the
records whose date equals the k-th distinct date. -/
theorem daily_revenue_spec (data : List Record) (rawSel : String) :
    (pyIsdigit (pyStrip rawSel) = false → daily_revenue data rawSel = .invalidInput) ∧
    (pyIsdigit (pyStrip rawSel) = true →
      (pyIntValue (pyStrip rawSel).data = 0 ∨
        (uniqueDates data).length < pyIntValue (pyStrip rawSel).data) →
      daily_revenue data rawSel = .invalidSelection) ∧
    (∀ k : Nat, pyIsdigit (pyStrip rawSel) = true →
      pyIntValue (pyStrip rawSel).data = k →
      1 ≤ k → k ≤ (uniqueDates data).length →
      daily_revenue data rawSel =
        .total ((uniqueDates data)[k - 1]!)
          (((data.filter fun r => r.date == (uniqueDates data)[k - 1]!).map
            fun r => r.fee).sum)) := by
  refine ⟨fun h => ?_, fun h hk => ?_, fun k h hv h1 h2 => ?_⟩ <;> unfold daily_revenue
  · rw [if_pos h]
  · rw [if_neg (by simp [h]), if_neg (by omega)]
  · subst hv
    rw [if_neg (by simp [h]), if_pos ⟨h1, h2⟩]

/-- Revenue record: 2024/01/01, fee 10 (C4 witness). -/
def rev1 : Record := ⟨"A1", "2024/01/01", 900, 1000, "S1", 10⟩

/-- Revenue record: 2024/01/01, fee 20 (C4 witness). -/
def rev2 : Record := ⟨"A2", "2024/01/01", 900, 1000, "S1", 20⟩

/-- Revenue record: 2024/01/01, fee 5 (C4 witness). -/
def rev3 : Record := ⟨"A3", "2024/01/01", 900, 1000, "S1", 5⟩

/-- Revenue record: 2024/01/02, fee 100 (C4 witness). -/
def rev4 : Record := ⟨"A4", "2024/01/02", 900, 1000, "S1", 100⟩

/-- Witness for C4: selecting date 1 of {2024/01/01, 2024/01/02} sums fees
10 + 20 + 5 = 35 and excludes the 100 fee of the other date; a non-numeric
selection and an out-of-range selection are rejected. -/
theorem daily_revenue_spec_witness :
    daily_revenue [rev1, rev2, rev3, rev4] "1" = .total "2024/01/01" 35 ∧
    daily_revenue [rev1, rev2, rev3, rev4] "x" = .invalidInput ∧
    daily_revenue [rev1, rev2, rev3, rev4] "3" = .invalidSelection :=
  ⟨((daily_revenue_spec [rev1, rev2, rev3, rev4] "1").2.2 1 (by decide) (by decide)
      (by decide) (by decide)).trans (by decide),
   (daily_revenue_spec [rev1, rev2, rev3, rev4] "x").1 (by decide),
   (daily_revenue_spec [rev1, rev2, rev3, rev4] "3").2.1 (by decide) (by decide)⟩

/-! ### Peak-hour lemmas -/

/-- Lookup in the `hour_counts` association list (Python `dict.get`). -/
def lookupCount : List (Int × Nat) → Int → Option Nat
  | [], _ => none
  | (k, c) :: rest, h => if k == h then some c else lookupCount rest h

theorem lookupCount_bump_self : ∀ (acc : List (Int × Nat)) (g : Int),
    lookupCount (bump acc g) g = some ((lookupCount acc g).getD 0 + 1)
  | [], g => by simp [bump, lookupCount]
  | (k, c) :: rest, g => by
    cases hk : k == g
    · simp [bump, lookupCount, hk, lookupCount_bump_self rest g]
    · simp [bump, lookupCount, hk]

theorem lookupCount_bump_other : ∀ (acc : List (Int × Nat)) (g h : Int),
    (g == h) = false → lookupCount (bump acc g) h = lookupCount acc h
  | [], g, h, hne => by simp [bump, lookupCount, hne]
  | (k, c) :: rest, g, h, hne => by
    cases hk : k == g
    · simp [bump, lookupCount, hk, lookupCount_bump_other rest g h hne]
    · have hkg : k = g := eq_of_beq hk
      subst hkg
      simp [bump, lookupCount, hne]

/-- The keys of the `hour_counts` association list, in insertion order. -/
def keysOf (acc : List (Int × Nat)) : List Int := acc.map Prod.fst

theorem keysOf_cons (k : Int) (c : Nat) (rest : List (Int × Nat)) :
    keysOf ((k, c) :: rest) = k :: keysOf rest := rfl

theorem keysOf_bump : ∀ (acc : List (Int × Nat)) (g : Int),
    keysOf (bump acc g) =
      if g ∈ keysOf acc then keysOf acc else keysOf acc ++ [g]
  | [], g => by simp [bump, keysOf]
  | (k, c) :: rest, g => by
    cases hk : k == g
    · have hne : k ≠ g := ne_of_beq_false hk
      have hb : bump ((k, c) :: rest) g = (k, c) :: bump rest g := by
        simp [bump, hk]
      rw [hb, keysOf_cons, keysOf_bump rest g, keysOf_cons]
      by_cases hg : g ∈ keysOf rest
      · rw [if_pos hg, if_pos (List.mem_cons_of_mem k hg)]
      · rw [if_neg hg, if_neg fun hmem => ?_]
        · rw [List.cons_append]
        · rcases List.mem_cons.mp hmem with h | h
          · exact hne h.symm
          · exact hg h
    · have hkg : k = g := eq_of_beq hk
      subst hkg
      simp [bump, keysOf]

theorem keysOf_bump_nodup (acc : List (Int × Nat)) (g : Int)
    (hn : (keysOf acc).Nodup) : (keysOf (bump acc g)).Nodup := by
  rw [keysOf_bump]
  by_cases hg : g ∈ keysOf acc
  · simpa [hg] using hn
  · simp [hg, List.nodup_append, hn]

theorem hourCounts_append_singleton (data : List Record) (r : Record) :
    hourCounts (data ++ [r]) = bump (hourCounts data) (hourOf r) := by
  simp [hourCounts, List.foldl_append]

theorem hourCounts_keys_nodup (data : List Record) :
    (keysOf (hourCounts data)).Nodup := by
  induction data using List.reverseRecOn with
  | nil => simp [hourCounts, keysOf]
  | append_singleton data r ih =>
    rw [hourCounts_append_singleton]
    exact keysOf_bump_nodup _ _ ih

theorem lookupCount_hourCounts (data : List Record) (h : Int) :
    lookupCount (hourCounts data) h =
      if data.countP (fun r => hourOf r == h) = 0 then none
      else some (data.countP fun r => hourOf r == h) := by
  induction data using List.reverseRecOn with
  | nil => simp [hourCounts, lookupCount]
  | append_singleton data r ih =>
    rw [hourCounts_append_singleton]
    cases heq : hourOf r == h
    · rw [lookupCount_bump_other _ _ _ heq, ih]
      simp [List.countP_append, List.countP_cons, heq]
    · have hoh : hourOf r = h := eq_of_beq heq
      subst hoh
      rw [lookupCount_bump_self, ih]
      by_cases hc : data.countP (fun s => hourOf s == hourOf r) = 0
      · simp [hc, List.countP_append, List.countP_cons]
      · simp [hc, List.countP_append, List.countP_cons]

theorem mem_of_lookupCount : ∀ (acc : List (Int × Nat)) (h : Int) (c : Nat),
    lookupCount acc h = some c → (h, c) ∈ acc
  | [], h, c, hl => by cases hl
  | (k, c0) :: rest, h, c, hl => by
    cases hk : k == h
    · simp only [lookupCount, hk, if_neg Bool.false_ne_true] at hl
      exact List.mem_cons_of_mem _ (mem_of_lookupCount rest h c hl)
    · have hkh : k = h := eq_of_beq hk
      subst hkh
      simp [lookupCount] at hl
      subst hl
      exact List.mem_cons_self _ _

theorem lookupCount_of_mem : ∀ (acc : List (Int × Nat)),
    (keysOf acc).Nodup → ∀ (h : Int) (c : Nat),
    (h, c) ∈ acc → lookupCount acc h = some c
  | [], _, h, c, hm => by cases hm
  | (k, c0) :: rest, hn, h, c, hm => by
    have hn' : k ∉ keysOf rest ∧ (keysOf rest).Nodup := by
      simpa [keysOf] using List.nodup_cons.mp hn
    rcases List.mem_cons.mp hm with heq | hm'
    · cases heq
      simp [lookupCount]
    · have hh : h ∈ keysOf rest := by
        simpa [keysOf] using List.mem_map_of_mem Prod.fst hm'
      have hk : (k == h) = false := by
        refine beq_eq_false_iff_ne.mpr fun he => ?_
        exact hn'.1 (he ▸ hh)
      simp only [lookupCount, hk, if_neg Bool.false_ne_true]
      exact lookupCount_of_mem rest hn'.2 h c hm'

theorem mem_hourCounts_iff (data : List Record) (h : Int) (c : Nat) :
    (h, c) ∈ hourCounts data ↔
      (data.countP (fun r => hourOf r == h) = c ∧ c ≠ 0) := by
  constructor
  · intro hm
    have hl := lookupCount_of_mem (hourCounts data) (hourCounts_keys_nodup data) h c hm
    rw [lookupCount_hourCounts] at hl
    by_cases hc : data.countP (fun r => hourOf r == h) = 0
    · rw [if_pos hc] at hl
      cases hl
    · rw [if_neg hc] at hl
      have := Option.some.inj hl
      omega
  · rintro ⟨hc, hne⟩
    apply mem_of_lookupCount
    rw [lookupCount_hourCounts, hc, if_neg hne]

/-- C7: the peak-hour report groups records by the hour `checkin // 100`,
counts occurrences per hour, and outputs the (hour, count) pairs sorted by
count descending; the output is a permutation of the insertion-ordered count
table, membership is exactly "this hour occurs with this positive count",
and equal counts retain the relative order of the stable sort over the
first-insertion order; the output is a function of the input record list,
hence deterministic. -/
theorem peak_hour_spec (data : List Record) :
    (peak_hour_analysis data).Perm (hourCounts data) ∧
    (peak_hour_analysis data).Pairwise countDesc ∧
    (∀ h c, (h, c) ∈ peak_hour_analysis data ↔
      (data.countP (fun r => hourOf r == h) = c ∧ c ≠ 0)) ∧
    (∀ a b : Int × Nat, a.2 = b.2 → [a, b].Sublist (hourCounts data) →
      [a, b].Sublist (peak_hour_analysis data)) := by
  simp only [peak_hour_analysis]
  refine ⟨List.perm_insertionSort countDesc _, List.sorted_insertionSort countDesc _,
    fun h c => ?_, fun a b hab hs => ?_⟩
  · rw [(List.perm_insertionSort countDesc (hourCounts data)).mem_iff]
    exact mem_hourCounts_iff data h c
  · exact List.pair_sublist_insertionSort (show countDesc a b from le_of_eq hab.symm) hs

/-- Record checking in at hour `ci / 100` (C7 witness). -/
def mkPeak (ci : Int) : Record := ⟨"P1", "2024/01/01", ci, 1500, "S1", 0⟩

/-- Check-ins at hours 9, 9, 14, 9, 14 (C7 witness). -/
def peakData : List Record :=
  [mkPeak 900, mkPeak 915, mkPeak 1400, mkPeak 930, mkPeak 1415]

/-- Witness for C7: check-ins at hours 9, 9, 14, 9, 14 rank hour 9 (count 3)
before hour 14 (count 2). -/
theorem peak_hour_spec_witness :
    peak_hour_analysis peakData = [(9, 3), (14, 2)] ∧
    ((9 : Int), 3) ∈ peak_hour_analysis peakData :=
  ⟨by decide, ((peak_hour_spec peakData).2.2.1 9 3).mpr (by decide)⟩

/-! ### Date layout (C3) -/

/-- The fixed zero-padded `YYYY/MM/DD` layout described by the spec: exactly
ten characters, 4-digit year, 2-digit month, 2-digit day. -/
def zeroPaddedDate (s : String) : Bool :=
  match s.data with
  | [y1, y2, y3, y4, a, m1, m2, b, d1, d2] =>
    y1.isDigit && y2.isDigit && y3.isDigit && y4.isDigit && a == '/' &&
    m1.isDigit && m2.isDigit && b == '/' && d1.isDigit && d2.isDigit
  | _ => false

/-- Counterexample to C3: `load_dataset` accepts the date `2024/9/1`, which is
not in the zero-padded `YYYY/MM/DD` layout, and on the accepted dates
`2024/9/1` and `2024/10/1` the lexicographic sort used by `daily_revenue`
places October before September - not chronological order. -/
theorem date_zero_padding_counterexample :
    (load_dataset (.content
      ["AB12|2024/9/1|900|1000|S1|5", "AB12|2024/10/1|900|1000|S1|5"])).1.map
        (fun r => r.date) = ["2024/9/1", "2024/10/1"] ∧
    zeroPaddedDate "2024/9/1" = false ∧
    uniqueDates (load_dataset (.content
      ["AB12|2024/9/1|900|1000|S1|5", "AB12|2024/10/1|900|1000|S1|5"])).1 =
      ["2024/10/1", "2024/9/1"] :=
  ⟨by decide, by decide, by decide⟩

/-- The digit character for `n ≤ 9`. -/
def digitChar (n : Nat) : Char := Char.ofNat (48 + n)

/-- The two low decimal digits of `n`, as characters. -/
def digits2 (n : Nat) : List Char := [digitChar (n / 10 % 10), digitChar (n % 10)]

/-- The four low decimal digits of `n`, as characters. -/
def digits4 (n : Nat) : List Char := digits2 (n / 100) ++ digits2 (n % 100)

/-- The zero-padded rendering `YYYY/MM/DD` of a date given numerically. -/
def padDate (y m d : Nat) : String :=
  ⟨digits4 y ++ '/' :: (digits2 m ++ '/' :: digits2 d)⟩

theorem digitChar_lt_iff_bounded :
    ∀ a, a ≤ 9 → ∀ b, b ≤ 9 → (digitChar a < digitChar b ↔ a < b) := by decide

theorem digitChar_eq_iff_bounded :
    ∀ a, a ≤ 9 → ∀ b, b ≤ 9 → (digitChar a = digitChar b ↔ a = b) := by decide

theorem digitChar_isDigit_bounded : ∀ a, a ≤ 9 → (digitChar a).isDigit = true := by decide

theorem digitChar_lt_mod (a b : Nat) :
    digitChar (a % 10) < digitChar (b % 10) ↔ a % 10 < b % 10 :=
  digitChar_lt_iff_bounded _ (by omega) _ (by omega)

theorem digitChar_eq_mod (a b : Nat) :
    digitChar (a % 10) = digitChar (b % 10) ↔ a % 10 = b % 10 :=
  digitChar_eq_iff_bounded _ (by omega) _ (by omega)

theorem digitChar_mod_isDigit (a : Nat) : (digitChar (a % 10)).isDigit = true :=
  digitChar_isDigit_bounded _ (by omega)

theorem lexLt_cons_iff (a b : Char) (as bs : List Char) :
    lexLt (a :: as) (b :: bs) = true ↔ (a < b ∨ (a = b ∧ lexLt as bs = true)) := by
  simp only [lexLt]
  rcases lt_trichotomy a b with h | h | h
  · simp [h]
  · subst h
    rw [if_neg (lt_irrefl a), if_neg (lt_irrefl a)]
    simp [lt_irrefl]
  · rw [if_neg (lt_asymm h), if_pos h]
    simp [lt_asymm h, (ne_of_gt h)]

theorem lexLt_nil_iff : lexLt ([] : List Char) [] = true ↔ False := by
  simp [lexLt]

theorem twoDigitBlock (a b : Nat) (P : Prop) (ha : a ≤ 99) (hb : b ≤ 99) :
    (a / 10 % 10 < b / 10 % 10 ∨ (a / 10 % 10 = b / 10 % 10 ∧
      (a % 10 < b % 10 ∨ (a % 10 = b % 10 ∧ P)))) ↔ (a < b ∨ (a = b ∧ P)) := by
  by_cases hP : P <;> simp [hP] <;> omega

theorem twoDigitBlockStrict (a b : Nat) (ha : a ≤ 99) (hb : b ≤ 99) :
    (a / 10 % 10 < b / 10 % 10 ∨ (a / 10 % 10 = b / 10 % 10 ∧ a % 10 < b % 10)) ↔
      a < b := by
  omega

theorem hundredBlock (a b : Nat) (P : Prop) :
    (a / 100 < b / 100 ∨ (a / 100 = b / 100 ∧
      (a % 100 < b % 100 ∨ (a % 100 = b % 100 ∧ P)))) ↔ (a < b ∨ (a = b ∧ P)) := by
  by_cases hP : P <;> simp [hP] <;> omega

theorem padDate_lt_iff (y m d y' m' d' : Nat)
    (hy : y ≤ 9999) (hm : m ≤ 99) (hd : d ≤ 99)
    (hy' : y' ≤ 9999) (hm' : m' ≤ 99) (hd' : d' ≤ 99) :
    strLt (padDate y m d) (padDate y' m' d') ↔
      (y < y' ∨ (y = y' ∧ (m < m' ∨ (m = m' ∧ d < d')))) := by
  show lexLt (digits4 y ++ '/' :: (digits2 m ++ '/' :: digits2 d))
      (digits4 y' ++ '/' :: (digits2 m' ++ '/' :: digits2 d')) = true ↔ _
  simp only [digits4, digits2, List.cons_append, List.nil_append, List.append_assoc]
  simp only [lexLt_cons_iff, lexLt_nil_iff, digitChar_lt_mod, digitChar_eq_mod,
    lt_self_iff_false, eq_self_iff_true, true_and, false_or, or_false, and_false]
  rw [twoDigitBlockStrict d d' hd hd']
  rw [twoDigitBlock m m' (d < d') hm hm']
  rw [twoDigitBlock (y % 100) (y' % 100) (m < m' ∨ (m = m' ∧ d < d'))
    (by omega) (by omega)]
  rw [twoDigitBlock (y / 100) (y' / 100)
    (y % 100 < y' % 100 ∨ (y % 100 = y' % 100 ∧ (m < m' ∨ (m = m' ∧ d < d'))))
    (by omega) (by omega)]
  rw [hundredBlock y y' (m < m' ∨ (m = m' ∧ d < d'))]

theorem validDate_of_parseLine (l : String) (r : Record)
    (h : parseLine l = some r) : validDate r.date = true := by
  simp only [parseLine] at h
  split at h
  · split at h
    · split at h
      · cases h
        assumption
      · cases h
    · cases h
  · cases h

/-- C3 (amended): every record accepted by `load_dataset` has a date string
that validates under `strptime` with format `%Y/%m/%d`, which requires a
4-digit year but allows 1- or 2-digit (unpadded) months and days;
`daily_revenue` sorts the distinct dates lexicographically, and on dates that
are in the zero-padded 10-character layout this lexicographic order agrees
with chronological order - but zero padding itself is not enforced by the
loader. -/
theorem date_format_amended :
    (∀ (lines : List String) (r : Record),
      r ∈ (load_dataset (.content lines)).1 → validDate r.date = true) ∧
    (∀ data : List Record, (uniqueDates data).Pairwise strLe) ∧
    (∀ y m d : Nat, zeroPaddedDate (padDate y m d) = true) ∧
    (∀ y m d y' m' d' : Nat, y ≤ 9999 → m ≤ 99 → d ≤ 99 →
      y' ≤ 9999 → m' ≤ 99 → d' ≤ 99 →
      (strLt (padDate y m d) (padDate y' m' d') ↔
        (y < y' ∨ (y = y' ∧ (m < m' ∨ (m = m' ∧ d < d')))))) := by
  refine ⟨fun lines r hr => ?_, fun data => ?_, fun y m d => ?_, padDate_lt_iff⟩
  · have h1 : (load_dataset (.content lines)).1 = lines.filterMap parseLine :=
      loadLines_fst lines 1
    rw [h1] at hr
    obtain ⟨l, _, hpl⟩ := List.mem_filterMap.mp hr
    exact validDate_of_parseLine l r hpl
  · simp only [uniqueDates]
    exact List.sorted_insertionSort strLe _
  · simp only [zeroPaddedDate, padDate, digits4, digits2, List.cons_append,
      List.nil_append]
    simp [digitChar_mod_isDigit]

/-- Witness for C3 (amended) at concrete inputs: the unpadded date `2024/9/1`
is accepted by the validator, the padded renderings of 2024-09-01 and
2024-10-01 compare in chronological order, and padded renderings are in the
zero-padded layout. -/
theorem date_format_amended_witness :
    validDate "2024/9/1" = true ∧
    strLt (padDate 2024 9 1) (padDate 2024 10 1) ∧
    zeroPaddedDate (padDate 2024 9 1) = true :=
  ⟨date_format_amended.1 ["AB12|2024/9/1|900|1000|S1|5"]
      ⟨"AB12", "2024/9/1", 900, 1000, "S1", 5⟩ (by decide),
   (date_format_amended.2.2.2 2024 9 1 2024 10 1 (by omega) (by omega) (by omega)
      (by omega) (by omega) (by omega)).mpr (by omega),
   date_format_amended.2.2.1 2024 9 1⟩

/-- C10: the loader converts checkin/checkout/fee with Python `int()`, which
accepts an optional sign and surrounding whitespace, and applies no range or
sign check, so a line with checkin `-930` and fee `-50` is accepted and
produces a record with negative checkin and fee, outside the documented HHMM
and non-negative-fee domains. -/
theorem signed_numeric_fields_accepted :
    load_dataset (.content ["AB|2024/01/01|-930|1000|S1|-50"]) =
      ([{ plate := "AB", date := "2024/01/01", checkin := -930, checkout := 1000,
          spot_id := "S1", fee := -50 }], []) ∧
    pyInt "+42" = some 42 ∧
    pyInt " -7 " = some (-7) ∧
    (-930 : Int) < 0 ∧ (-50 : Int) < 0 := by
  refine ⟨by decide, by decide, by decide, by decide, by decide⟩

end Parking
